import Mathlib

/-!
Verification development for the DataSage AI repository.

The repository's `src` holds the Streamlit front end (`app.py`,
`backup_app.py`).  The data-quality and cleaning engine
(`modules/data_cleaning.py`, class `DataCleaner`) is imported and called
by `app.py` but its source is not part of `src`; following the
specification (spec.md §3–§4, §7–§8) we model that engine here.
Definitions embedding the engine carry a doc comment starting
`Modelled from the spec:`.  The helper `_clean_dataframe_for_display`
is present in `src/DataSage AI/app.py` and is embedded from that source.

Numeric cells are modelled as rationals (ℚ), an idealisation of the
float64 values of the original; no claim below depends on floating-point
rounding.
-/

/-- Modelled from the spec: §9 "model as a tagged variant per cell value
{Null, Number, Text, Boolean}".  Text is carried as a list of characters
so that the character-level replacements of
`_clean_dataframe_for_display` can be modelled faithfully. -/
inductive Cell where
  | null : Cell
  | num  : ℚ → Cell
  | text : List Char → Cell
  | bool : Bool → Cell
deriving DecidableEq, Repr

/-- Modelled from the spec: §3 "Dataset: an ordered sequence of named
columns, each column an ordered sequence of typed cells". -/
structure Dataset where
  cols : List (String × List Cell)
deriving DecidableEq, Repr

/-- Row count of a dataset: the length of its first column (all columns
of a well-formed dataset have the same length, spec §3); a dataset with
zero columns has zero rows. -/
def Dataset.rowCount (D : Dataset) : Nat :=
  match D.cols with
  | [] => 0
  | c :: _ => c.2.length

/-- Spec §3 well-formedness: "Row count is the number of cells per
column (uniform across columns)". -/
def Dataset.uniform (D : Dataset) : Prop :=
  ∀ c ∈ D.cols, c.2.length = D.rowCount

/-- Row `i` of a dataset: the `i`-th cell of every column in order. -/
def Dataset.rowAt (D : Dataset) (i : Nat) : List Cell :=
  D.cols.map (fun c => c.2.getD i Cell.null)

/-- The rows of a dataset, in order. -/
def Dataset.rows (D : Dataset) : List (List Cell) :=
  (List.range D.rowCount).map D.rowAt

/-- Rebuild a dataset from a list of column names and a list of rows. -/
def Dataset.fromRows (names : List String) (rs : List (List Cell)) : Dataset :=
  ⟨(List.range names.length).map
    (fun j => (names.getD j "", rs.map (fun r => r.getD j Cell.null)))⟩

/-- The column names of a dataset, in order. -/
def Dataset.names (D : Dataset) : List String :=
  D.cols.map Prod.fst

/-- Modelled from the spec: §4.1 "a row is a duplicate if a row with
identical values in every column occurred earlier in iteration order".
`seen` accumulates the rows already passed. -/
def dupCountAux (seen : List (List Cell)) : List (List Cell) → Nat
  | [] => 0
  | r :: rs => (if r ∈ seen then 1 else 0) + dupCountAux (r :: seen) rs

/-- Number of duplicate rows of a row list (first occurrences are not
counted as duplicates). -/
def dupRowCount (rs : List (List Cell)) : Nat := dupCountAux [] rs

/-- Rows with the duplicates removed, keeping the first occurrence of
each distinct row (spec §4.3, `remove_duplicates`). -/
def distinctAux (seen : List (List Cell)) : List (List Cell) → List (List Cell)
  | [] => []
  | r :: rs => if r ∈ seen then distinctAux (r :: seen) rs else r :: distinctAux (r :: seen) rs

/-- The distinct rows of a row list, first occurrences kept in order. -/
def distinctRows (rs : List (List Cell)) : List (List Cell) := distinctAux [] rs

theorem dupCountAux_add_length (seen : List (List Cell)) (rs : List (List Cell)) :
    dupCountAux seen rs + (distinctAux seen rs).length = rs.length := by
  induction rs generalizing seen with
  | nil => simp [dupCountAux, distinctAux]
  | cons r rs ih =>
    by_cases h : r ∈ seen
    · simp [dupCountAux, distinctAux, h]
      have := ih (r :: seen)
      omega
    · simp [dupCountAux, distinctAux, h]
      have := ih (r :: seen)
      omega

theorem dupRowCount_eq (rs : List (List Cell)) :
    dupRowCount rs = rs.length - (distinctRows rs).length := by
  have h := dupCountAux_add_length [] rs
  unfold dupRowCount distinctRows
  omega

/-! ### Column statistics (spec §4.1) -/

/-- Insert a rational into a sorted list, keeping it sorted. -/
def insertSorted (x : ℚ) : List ℚ → List ℚ
  | [] => [x]
  | y :: ys => if x ≤ y then x :: y :: ys else y :: insertSorted x ys

/-- Insertion sort on rationals, used for quartiles and the median. -/
def sortQ : List ℚ → List ℚ
  | [] => []
  | x :: xs => insertSorted x (sortQ xs)

/-- Modelled from the spec: quantile with linear interpolation between
order statistics (the convention of numpy/pandas percentile, exact over
ℚ); `q` is the requested fraction. `vs` must already be sorted.
Empty input yields 0 (degenerate sentinel, spec §7). -/
def quantileSorted (vs : List ℚ) (q : ℚ) : ℚ :=
  match vs with
  | [] => 0
  | _ =>
    let n := vs.length
    let pos : ℚ := ((n - 1 : ℕ) : ℚ) * q
    let i : Nat := pos.floor.toNat
    let lo := vs.getD i 0
    let hi := vs.getD (min (i + 1) (n - 1)) 0
    lo + (pos - (i : ℚ)) * (hi - lo)

/-- Median of a list of rationals (0 on the empty list, spec §7). -/
def medianQ (vs : List ℚ) : ℚ := quantileSorted (sortQ vs) (1 / 2)

/-- Mean of a list of rationals (0 on the empty list, spec §7). -/
def meanQ (vs : List ℚ) : ℚ :=
  if vs.length = 0 then 0 else vs.sum / (vs.length : ℚ)

/-- Modelled from the spec: sample variance (the square of the stddev
used for z-scores); spec §4.1 treats the stddev as undefined when the
column has fewer than 2 non-null values, so this returns 0 there. -/
def sampleVarianceQ (vs : List ℚ) : ℚ :=
  if vs.length < 2 then 0
  else ((vs.map (fun v => (v - meanQ vs) ^ 2)).sum) / ((vs.length : ℚ) - 1)

/-- Modelled from the spec: §4.1 "Z-score outlier count = values whose
|value − mean| / stddev > 3; if stddev is zero or undefined (column has
<2 non-null values), z-score outlier count is 0 (not an error)".  Over
ℚ the criterion |v − mean|/σ > 3 is stated square-free as
(v − mean)² > 9·variance. -/
def zScoreOutlierCount (vs : List ℚ) : Nat :=
  if vs.length < 2 then 0
  else if sampleVarianceQ vs = 0 then 0
  else (vs.filter (fun v => decide ((v - meanQ vs) ^ 2 > 9 * sampleVarianceQ vs))).length

/-- IQR fences of a list of values (spec §4.1): Q1 − 1.5·IQR and
Q3 + 1.5·IQR. -/
def iqrBoundsOf (vs : List ℚ) : ℚ × ℚ :=
  let s := sortQ vs
  let q1 := quantileSorted s (1 / 4)
  let q3 := quantileSorted s (3 / 4)
  let iqr := q3 - q1
  (q1 - 3 / 2 * iqr, q3 + 3 / 2 * iqr)

/-- Count of values outside the IQR fences (spec §4.1). -/
def iqrOutlierCount (vs : List ℚ) : Nat :=
  let b := iqrBoundsOf vs
  (vs.filter (fun v => decide (v < b.1 ∨ v > b.2))).length

/-- The numeric values of a column: its non-null cells when all of them
are numbers (spec §4.1 restricts outlier analysis to numeric columns). -/
def numericCells (cells : List Cell) : List ℚ :=
  cells.filterMap (fun c => match c with | Cell.num q => some q | _ => none)

/-- A column counts as numeric when every non-null cell is a number and
at least one numeric cell is present. -/
def isNumericColumn (cells : List Cell) : Bool :=
  cells.all (fun c => match c with | Cell.num _ => true | Cell.null => true | _ => false)
    && !(numericCells cells).isEmpty

/-- A column counts as textual when every non-null cell is text and at
least one text cell is present. -/
def isTextColumn (cells : List Cell) : Bool :=
  cells.all (fun c => match c with | Cell.text _ => true | Cell.null => true | _ => false)
    && cells.any (fun c => match c with | Cell.text _ => true | _ => false)

/-- Number of null cells in a column. -/
def nullCount (cells : List Cell) : Nat :=
  (cells.filter (fun c => c = Cell.null)).length

/-! ### Quality report (spec §3, `QualityReport`) -/

/-- Per-column missingness entry (spec §3, `missing_data`). -/
structure ColumnMissing where
  count : Nat
  percentage : ℚ
  pattern : String
deriving DecidableEq, Repr

/-- Dataset-level missingness section of the report (spec §3). -/
structure MissingData where
  patterns : List (String × ColumnMissing)
  total_missing : Nat
  columns_with_missing : Nat
  severity : String
deriving DecidableEq, Repr

/-- Duplicate section of the report (spec §3). -/
structure DuplicateInfo where
  total_duplicates : Nat
  percentage : ℚ
deriving DecidableEq, Repr

/-- IQR fence values reported per numeric column (spec §3). -/
structure IqrBounds where
  lower : ℚ
  upper : ℚ
deriving DecidableEq, Repr

/-- Per-numeric-column outlier entry (spec §3, `outliers`). -/
structure OutlierInfo where
  iqr_outliers : Nat
  z_score_outliers : Nat
  iqr_bounds : IqrBounds
  severity : String
deriving DecidableEq, Repr

/-- Per-column type-optimization entry (spec §3, `data_types`). -/
structure TypeInfo where
  current_type : String
  suggested_type : String
  memory_usage_bytes : Nat
  optimization_possible : Bool
deriving DecidableEq, Repr

/-- Dataset size section of the report (spec §3, `dataset_info`). -/
structure DatasetInfo where
  rows : Nat
  columns : Nat
  memory_usage_mb : ℚ
  duplicate_adjusted_rows : Nat
deriving DecidableEq, Repr

/-- The full quality report (spec §3, `QualityReport`). -/
structure QualityReport where
  dataset_info : DatasetInfo
  missing_data : MissingData
  duplicates : DuplicateInfo
  outliers : List (String × OutlierInfo)
  data_types : List (String × TypeInfo)
  quality_score : ℚ
deriving DecidableEq, Repr

/-- Modelled from the spec: §3 missingness pattern bands — `none`,
`few` <5%, `moderate` 5–20%, `high` 20–50%, `severe` >50%. -/
def missingPatternTag (p : ℚ) : String :=
  if p = 0 then "none"
  else if p < 5 then "few"
  else if p ≤ 20 then "moderate"
  else if p ≤ 50 then "high"
  else "severe"

/-- Missingness severity bands in increasing order of severity. -/
def severityLevels : List String := ["none", "few", "moderate", "high", "severe"]

/-- Rank of a severity band within `severityLevels`. -/
def sevIndex (t : String) : Nat := severityLevels.indexOf t

/-- Modelled from the spec: §4.1 "Dataset-level severity = worst column
severity" (the empty dataset has severity `none`). -/
def worstSeverity (tags : List String) : String :=
  severityLevels.getD (tags.foldl (fun acc t => max acc (sevIndex t)) 0) "none"

/-- Modelled from the spec: §4.1 outlier severity "from ratio of
outliers to non-null count using fixed thresholds (e.g.,
none/low/moderate/high)"; the thresholds 5% and 10% are the documented
choice of this model. -/
def outlierSeverityTag (frac : ℚ) : String :=
  if frac = 0 then "none"
  else if frac ≤ 1 / 20 then "low"
  else if frac ≤ 1 / 10 then "moderate"
  else "high"

/-- Modelled from the spec: §4.1 per-column dominant type tag — numeric
columns are `int64` when every value is integral and `float64`
otherwise, boolean columns are `bool`, everything else is `object`. -/
def currentTypeTag (cells : List Cell) : String :=
  if isNumericColumn cells then
    if (numericCells cells).all (fun q => q.den = 1) then "int64" else "float64"
  else if cells.all (fun c => match c with | Cell.bool _ => true | Cell.null => true | _ => false)
       && cells.any (fun c => match c with | Cell.bool _ => true | _ => false) then "bool"
  else "object"

/-- Modelled from the spec: §4.1 type optimization — "suggest a narrower
numeric type when the full value range fits a smaller width, or suggest
a categorical representation when the number of distinct values is
small relative to row count (< 50% cardinality ratio) for a text
column". -/
def suggestedTypeTag (cells : List Cell) : String :=
  let cur := currentTypeTag cells
  if cur = "int64" then
    let vs := numericCells cells
    if vs.all (fun q => -128 ≤ q ∧ q ≤ 127) then "int8"
    else if vs.all (fun q => -32768 ≤ q ∧ q ≤ 32767) then "int16"
    else if vs.all (fun q => -2147483648 ≤ q ∧ q ≤ 2147483647) then "int32"
    else "int64"
  else if cur = "object" then
    if cells.dedup.length * 2 < cells.length then "category" else "object"
  else cur

/-- Modelled from the spec: §4.1 "Memory usage estimate computed per
column from type and row count" — width in bytes per cell of a type
tag. -/
def typeWidth : String → Nat
  | "int8" => 1
  | "int16" => 2
  | "int32" => 4
  | "bool" => 1
  | "category" => 1
  | _ => 8

/-- Weight of the overall missing percentage in the quality score
(spec §4.1: named, stable constants). -/
def MISSING_WEIGHT : ℚ := 1

/-- Weight of the duplicate percentage in the quality score. -/
def DUPLICATE_WEIGHT : ℚ := 1

/-- Weight of the mean IQR-outlier fraction (a value in [0,1]) in the
quality score. -/
def OUTLIER_WEIGHT : ℚ := 50

/-- Modelled from the spec: §4.1 "Quality score: 100 minus weighted
penalties … clamp to [0,100]". -/
def qualityScore (missingPct dupPct outlierFrac : ℚ) : ℚ :=
  max 0 (min 100
    (100 - MISSING_WEIGHT * missingPct - DUPLICATE_WEIGHT * dupPct
      - OUTLIER_WEIGHT * outlierFrac))

/-- Fraction of a numeric column's values that are IQR outliers
(0 for an empty column, spec §7 ArithmeticDegenerate). -/
def iqrOutlierFrac (vs : List ℚ) : ℚ :=
  if vs.length = 0 then 0 else (iqrOutlierCount vs : ℚ) / (vs.length : ℚ)

/-- Modelled from the spec: §4.1 `analyze(dataset) -> QualityReport`,
the quality analyzer of `DataCleaner.generate_data_quality_report`
(source `modules/data_cleaning.py`, absent from `src`).  Pure function
of the dataset; percentages guard a zero row count (spec §4.1, §7). -/
def generate_data_quality_report (D : Dataset) : QualityReport :=
  let nRows := D.rowCount
  let nCols := D.cols.length
  let colMissing := D.cols.map (fun c =>
    let cnt := nullCount c.2
    let pct : ℚ := if nRows = 0 then 0 else (cnt : ℚ) * 100 / (nRows : ℚ)
    (c.1, ColumnMissing.mk cnt pct (missingPatternTag pct)))
  let totalMissing := (D.cols.map (fun c => nullCount c.2)).sum
  let colsWithMissing := (D.cols.filter (fun c => nullCount c.2 != 0)).length
  let missing := MissingData.mk colMissing totalMissing colsWithMissing
    (worstSeverity (colMissing.map (fun p => p.2.pattern)))
  let dups := dupRowCount D.rows
  let dupPct : ℚ := if nRows = 0 then 0 else (dups : ℚ) * 100 / (nRows : ℚ)
  let numericCols := D.cols.filter (fun c => isNumericColumn c.2)
  let outliers := numericCols.map (fun c =>
    let vs := numericCells c.2
    let b := iqrBoundsOf vs
    (c.1, OutlierInfo.mk (iqrOutlierCount vs) (zScoreOutlierCount vs)
      (IqrBounds.mk b.1 b.2) (outlierSeverityTag (iqrOutlierFrac vs))))
  let dataTypes := D.cols.map (fun c =>
    let cur := currentTypeTag c.2
    let sug := suggestedTypeTag c.2
    (c.1, TypeInfo.mk cur sug (typeWidth cur * c.2.length) (sug != cur)))
  let memBytes := (D.cols.map (fun c => typeWidth (currentTypeTag c.2) * c.2.length)).sum
  let overallMissingPct : ℚ :=
    if nRows * nCols = 0 then 0
    else (totalMissing : ℚ) * 100 / ((nRows : ℚ) * (nCols : ℚ))
  let meanOutlierFrac := meanQ (numericCols.map (fun c => iqrOutlierFrac (numericCells c.2)))
  QualityReport.mk
    (DatasetInfo.mk nRows nCols ((memBytes : ℚ) / 1048576) (nRows - dups))
    missing
    (DuplicateInfo.mk dups dupPct)
    outliers
    dataTypes
    (qualityScore overallMissingPct dupPct meanOutlierFrac)

/-! ### Suggestion synthesizer (spec §4.2) -/

/-- Modelled from the spec: §4.2 `suggest(report)` of
`DataCleaner.suggest_cleaning_strategies` (source
`modules/data_cleaning.py`, absent from `src`).  Returns all five fixed
categories as keys — missing-value handling, duplicate handling,
outlier handling, type optimization, text normalization — each mapped
to a possibly empty ordered list of recommendation strings derived from
report fields. -/
def suggest_cleaning_strategies (r : QualityReport) : List (String × List String) :=
  [("missing_values",
     (r.missing_data.patterns.filter (fun p => p.2.count != 0)).map (fun p =>
       let col := p.1
       let cnt := p.2.count
       let pat := p.2.pattern
       s!"Handle {cnt} missing values in column {col} ({pat} missingness)")),
   ("duplicates",
     if r.duplicates.total_duplicates ≠ 0 then
       let n := r.duplicates.total_duplicates
       [s!"Remove {n} duplicate rows"]
     else []),
   ("outliers",
     (r.outliers.filter (fun p => p.2.iqr_outliers != 0)).map (fun p =>
       let col := p.1
       let n := p.2.iqr_outliers
       s!"Review {n} outliers in column {col}")),
   ("data_types",
     (r.data_types.filter (fun p => p.2.optimization_possible)).map (fun p =>
       let col := p.1
       let sug := p.2.suggested_type
       s!"Convert column {col} to {sug}")),
   ("text_cleaning",
     (r.data_types.filter (fun p => p.2.current_type == "object")).map (fun p =>
       let col := p.1
       s!"Normalize whitespace and casing in column {col}"))]

/-! ### Cleaning pipeline (spec §4.3) -/

/-- Modelled from the spec: §4.3 `remove_duplicates` — "drop rows
identified as duplicates per §4.1 definition, keep first occurrence",
logging the actual count observed. -/
def removeDuplicatesOp (D : Dataset) : Dataset × String :=
  let rs := D.rows
  let kept := distinctRows rs
  let n := dupRowCount rs
  (Dataset.fromRows D.names kept, s!"Removed {n} duplicate rows")

/-- Modelled from the spec: §4.3 `fix_data_types` — "apply the
type-optimization suggestions from §4.1 where safe (value round-trips
without loss)".  In this value-level model a lossless width change
leaves every cell value unchanged, so only the log records the
optimized columns. -/
def fixDataTypesOp (D : Dataset) : Dataset × String :=
  let n := (D.cols.filter (fun c => suggestedTypeTag c.2 != currentTypeTag c.2)).length
  (D, s!"Optimized data types for {n} columns")

/-- Most frequent non-null cell of a column (`none` when the column has
no non-null cells). -/
def modeCell (cells : List Cell) : Option Cell :=
  let nonNull := cells.filter (fun c => c != Cell.null)
  nonNull.foldl (fun acc c =>
    match acc with
    | none => some c
    | some m => if nonNull.count c > nonNull.count m then some c else acc) none

/-- Modelled from the spec: §4.3 `handle_missing_basic` — "numeric
columns: fill missing with column median; non-numeric: fill missing
with column mode, or a fixed placeholder if no mode exists". -/
def handleMissingBasicOp (D : Dataset) : Dataset × String :=
  let filled := (D.cols.map (fun c => nullCount c.2)).sum
  let newCols := D.cols.map (fun c =>
    if isNumericColumn c.2 then
      let m := medianQ (numericCells c.2)
      (c.1, c.2.map (fun x => if x = Cell.null then Cell.num m else x))
    else
      let m := (modeCell c.2).getD (Cell.text "Unknown".toList)
      (c.1, c.2.map (fun x => if x = Cell.null then m else x)))
  (⟨newCols⟩, s!"Filled {filled} missing values")

/-- Drop leading and trailing whitespace of a character list. -/
def trimChars (s : List Char) : List Char :=
  ((s.dropWhile Char.isWhitespace).reverse.dropWhile Char.isWhitespace).reverse

/-- Collapse every run of whitespace into a single space; the flag
records whether the previous character was whitespace. -/
def collapseAux : Bool → List Char → List Char
  | _, [] => []
  | prevSpace, c :: cs =>
    if c.isWhitespace then
      if prevSpace then collapseAux true cs
      else ' ' :: collapseAux true cs
    else c :: collapseAux false cs

/-- Spec §4.3 `clean_text` normalization of one text value: trim
leading/trailing whitespace and collapse internal whitespace runs. -/
def normalizeText (s : List Char) : List Char := collapseAux false (trimChars s)

/-- Modelled from the spec: §4.3 `clean_text` — "trim leading/trailing
whitespace, collapse internal whitespace runs, on text columns only". -/
def cleanTextOp (D : Dataset) : Dataset × String :=
  let textCols := (D.cols.filter (fun c => isTextColumn c.2)).length
  let newCols := D.cols.map (fun c =>
    if isTextColumn c.2 then
      (c.1, c.2.map (fun x =>
        match x with
        | Cell.text s => Cell.text (normalizeText s)
        | other => other))
    else c)
  (⟨newCols⟩, s!"Cleaned text in {textCols} columns")

/-- A row survives outlier removal when every numeric cell lies inside
its column's IQR fences. -/
def rowInBounds (fences : List (Option (ℚ × ℚ))) (r : List Cell) : Bool :=
  (fences.zip r).all (fun p =>
    match p with
    | (some b, Cell.num v) => decide (b.1 ≤ v ∧ v ≤ b.2)
    | _ => true)

/-- Modelled from the spec: §4.3 `remove_outliers` — "drop rows where
any numeric column's value lies outside that column's IQR fences
(computed on the dataset as it stands at the time this operation
executes)"; with no numeric columns it is a no-op logged as having no
applicable columns (spec §4.3 failure conditions). -/
def removeOutliersOp (D : Dataset) : Dataset × String :=
  if (D.cols.filter (fun c => isNumericColumn c.2)).isEmpty then
    (D, "remove_outliers: no applicable columns")
  else
    let fences := D.cols.map (fun c =>
      if isNumericColumn c.2 then some (iqrBoundsOf (numericCells c.2)) else none)
    let kept := D.rows.filter (rowInBounds fences)
    let n := D.rows.length - kept.length
    (Dataset.fromRows D.names kept, s!"Removed {n} outlier rows")

/-- The cleaning operation tags recognized by the pipeline
(spec §4.3). -/
def recognized_operations : List String :=
  ["remove_duplicates", "fix_data_types", "handle_missing_basic",
   "clean_text", "remove_outliers"]

/-- Dispatch one recognized operation tag (unknown tags are rejected
before dispatch and leave the dataset unchanged here). -/
def applyOperation (D : Dataset) (tag : String) : Dataset × String :=
  if tag = "remove_duplicates" then removeDuplicatesOp D
  else if tag = "fix_data_types" then fixDataTypesOp D
  else if tag = "handle_missing_basic" then handleMissingBasicOp D
  else if tag = "clean_text" then cleanTextOp D
  else if tag = "remove_outliers" then removeOutliersOp D
  else (D, "")

/-- Validation failure of the cleaning pipeline (spec §7,
ValidationError). -/
inductive CleanError where
  | validationError (tag : String)
deriving DecidableEq, Repr

/-- Modelled from the spec: §4.3 `clean(dataset, operations)` of
`DataCleaner.auto_clean_data` (source `modules/data_cleaning.py`,
absent from `src`).  Every tag is validated before any operation runs
(spec §7: atomic — a validation failure means no operation is applied);
recognized operations execute in the caller-given order, each appending
one log line. -/
def auto_clean_data (D : Dataset) (operations : List String) :
    Except CleanError (Dataset × List String) :=
  match operations.find? (fun t => decide (t ∉ recognized_operations)) with
  | some t => Except.error (CleanError.validationError t)
  | none =>
    Except.ok (operations.foldl (fun acc t =>
      let r := applyOperation acc.1 t
      (r.1, acc.2 ++ [r.2])) (D, []))

/-! ### Cleaning session state (spec §3/§4.4, class `DataCleaner`) -/

/-- Modelled from the spec: §3 CleaningSession / the `DataCleaner`
object state — the immutable original dataset, the working (cleaned)
dataset and the operation log. -/
structure DataCleaner where
  original_df : Dataset
  cleaned_df : Dataset
  cleaning_log : List String
deriving DecidableEq, Repr

/-- Constructing the engine around a dataset snapshot (spec §2): the
working copy starts equal to the original and the log empty. -/
def DataCleaner.init (D : Dataset) : DataCleaner := ⟨D, D, []⟩

/-- Modelled from the spec: §4.4 apply-cleaning — runs the pipeline on
the original dataset and stores the result as the working dataset; on a
validation failure the state is not replaced. -/
def DataCleaner.autoClean (c : DataCleaner) (operations : List String) :
    Except CleanError DataCleaner :=
  (auto_clean_data c.original_df operations).map
    (fun r => ⟨c.original_df, r.1, r.2⟩)

/-- Modelled from the spec: §3 CleaningSummary — original and resulting
shape, rows-changed delta and the ordered operation log. -/
structure CleaningSummary where
  original_shape : Nat × Nat
  current_shape : Nat × Nat
  rows_changed : Int
  cleaning_log : List String
deriving DecidableEq, Repr

/-- Summary of the last cleaning run (spec §3; consumed by the UI's
`get_cleaning_summary` call in `app.py`). -/
def DataCleaner.get_cleaning_summary (c : DataCleaner) : CleaningSummary :=
  { original_shape := (c.original_df.rowCount, c.original_df.cols.length)
    current_shape := (c.cleaned_df.rowCount, c.cleaned_df.cols.length)
    rows_changed := (c.original_df.rowCount : Int) - (c.cleaned_df.rowCount : Int)
    cleaning_log := c.cleaning_log }

/-! ### `_clean_dataframe_for_display` (src/DataSage AI/app.py, lines 13–37)

This helper is present in `src` and is embedded from that source.  A
pandas dataframe is a list of named, dtype-tagged columns; the dtypes
the function branches on are `object`, `int64` and `float64`. -/

/-- The pandas dtypes distinguished by `_clean_dataframe_for_display`. -/
inductive Dtype where
  | object : Dtype
  | int64 : Dtype
  | float64 : Dtype
  | other : Dtype
deriving DecidableEq, Repr

/-- One dataframe column: name, dtype tag and cells. -/
structure PandasColumn where
  name : String
  dtype : Dtype
  cells : List Cell
deriving DecidableEq, Repr

/-- A pandas dataframe as consumed by `_clean_dataframe_for_display`. -/
structure PandasDF where
  cols : List PandasColumn
deriving DecidableEq, Repr

/-- Pandas `astype(str)` on one cell of an object column: the string rendering
pandas produces — NaN prints as `nan`, numbers and booleans print their
usual text, strings stay themselves. -/
def pyStr : Cell → List Char
  | Cell.null => "nan".toList
  | Cell.num q =>
      (toString q.num ++ (if q.den = 1 then "" else "/" ++ toString q.den)).toList
  | Cell.text s => s
  | Cell.bool b => (if b then "True" else "False").toList

/-- Pandas `Series.replace` with the list `['nan', 'None', 'NaN']` and
replacement `''` on one stringified cell: whole-value match against the
three null spellings (app.py line 22). -/
def stripNullStrings (s : List Char) : List Char :=
  if s = "nan".toList ∨ s = "None".toList ∨ s = "NaN".toList then [] else s

/-- Python `str.replace` for a single-character pattern: every
occurrence of `c` is replaced by `repl`. -/
def replaceChar (c : Char) (repl : List Char) : List Char → List Char
  | [] => []
  | x :: xs =>
    if x = c then repl ++ replaceChar c repl xs
    else x :: replaceChar c repl xs

/-- The three character replacements of app.py lines 24–26, in source
order: `%` → `_percent`, then `$` → `_dollar`, then `:` → `_colon`. -/
def arrowClean (s : List Char) : List Char :=
  replaceChar ':' "_colon".toList
    (replaceChar '$' "_dollar".toList
      (replaceChar '%' "_percent".toList s))

/-- First loop of `_clean_dataframe_for_display` (app.py lines 17–26):
object columns are stringified, null spellings blanked and the
problematic characters replaced; other columns are untouched. -/
def cleanColPass1 (col : PandasColumn) : PandasColumn :=
  if col.dtype = Dtype.object then
    { col with cells := col.cells.map (fun c =>
        Cell.text (arrowClean (stripNullStrings (pyStr c)))) }
  else col

/-- Second loop of `_clean_dataframe_for_display` (app.py lines 29–35):
object columns get `fillna('')`, int64/float64 columns get
`fillna(0)`. -/
def cleanColPass2 (col : PandasColumn) : PandasColumn :=
  if col.dtype = Dtype.object then
    { col with cells := col.cells.map (fun c =>
        if c = Cell.null then Cell.text [] else c) }
  else if col.dtype = Dtype.int64 ∨ col.dtype = Dtype.float64 then
    { col with cells := col.cells.map (fun c =>
        if c = Cell.null then Cell.num 0 else c) }
  else col

/-- Embeds `_clean_dataframe_for_display` from
`src/DataSage AI/app.py` lines 13–37: a copy of the dataframe is
rewritten by the two column passes above and returned; the input is
not touched. -/
def _clean_dataframe_for_display (df : PandasDF) : PandasDF :=
  ⟨(df.cols.map cleanColPass1).map cleanColPass2⟩

/-- A display-safe cell: a text cell containing none of `%`, `$`,
`:`. -/
def cellDisplaySafe : Cell → Bool
  | Cell.text s => s.all (fun ch => ch != '%' && ch != '$' && ch != ':')
  | _ => false

/-- Every object column holds only display-safe text cells (in
particular no nulls). -/
def objectColumnsDisplaySafe (df : PandasDF) : Bool :=
  df.cols.all (fun col => col.dtype != Dtype.object || col.cells.all cellDisplaySafe)

/-- Every int64/float64 column is free of null cells. -/
def numericColumnsNullFree (df : PandasDF) : Bool :=
  df.cols.all (fun col =>
    (col.dtype != Dtype.int64 && col.dtype != Dtype.float64)
      || col.cells.all (fun c => c != Cell.null))

/-- Column-wise relation between an input dataframe and its cleaned
output: every int64/float64 column of the output is the input column
with each null replaced by the number 0. -/
def numericNullsZeroed (df out : PandasDF) : Bool :=
  (df.cols.zip out.cols).all (fun p =>
    (p.1.dtype != Dtype.int64 && p.1.dtype != Dtype.float64)
      || (p.2.cells == p.1.cells.map (fun c => if c = Cell.null then Cell.num 0 else c)))

/-! ## Theorems -/

theorem not_mem_replaceChar_self (c : Char) (repl : List Char) (hr : c ∉ repl)
    (s : List Char) : c ∉ replaceChar c repl s := by
  induction s with
  | nil => simp [replaceChar]
  | cons x xs ih =>
    by_cases hx : x = c
    · simpa [replaceChar, hx, List.mem_append] using ⟨hr, ih⟩
    · simp only [replaceChar, if_neg hx, List.mem_cons]
      rintro (h | h)
      · exact hx h.symm
      · exact ih h

theorem not_mem_replaceChar_other (d c : Char) (repl : List Char)
    (hrepl : d ∉ repl) (s : List Char) (hs : d ∉ s) : d ∉ replaceChar c repl s := by
  induction s with
  | nil => simp [replaceChar]
  | cons x xs ih =>
    have hdx : d ≠ x := fun h => hs (h ▸ List.mem_cons_self x xs)
    have hs' : d ∉ xs := fun h => hs (List.mem_cons_of_mem x h)
    by_cases hx : x = c
    · simpa [replaceChar, hx, List.mem_append] using ⟨hrepl, ih hs'⟩
    · simp only [replaceChar, if_neg hx, List.mem_cons]
      rintro (h | h)
      · exact hdx h
      · exact ih hs' h

theorem arrowClean_safe (s : List Char) :
    '%' ∉ arrowClean s ∧ '$' ∉ arrowClean s ∧ ':' ∉ arrowClean s := by
  unfold arrowClean
  refine ⟨?_, ?_, ?_⟩
  · exact not_mem_replaceChar_other '%' ':' _ (by decide) _
      (not_mem_replaceChar_other '%' '$' _ (by decide) _
        (not_mem_replaceChar_self '%' _ (by decide) _))
  · exact not_mem_replaceChar_other '$' ':' _ (by decide) _
      (not_mem_replaceChar_self '$' _ (by decide) _)
  · exact not_mem_replaceChar_self ':' _ (by decide) _

theorem cellDisplaySafe_arrowClean (s : List Char) :
    cellDisplaySafe (Cell.text (arrowClean s)) = true := by
  have h := arrowClean_safe s
  simp only [cellDisplaySafe, List.all_eq_true]
  intro ch hch
  have h1 : ch ≠ '%' := fun e => h.1 (e ▸ hch)
  have h2 : ch ≠ '$' := fun e => h.2.1 (e ▸ hch)
  have h3 : ch ≠ ':' := fun e => h.2.2 (e ▸ hch)
  simp [h1, h2, h3]

theorem cleanCol_object_safe (col : PandasColumn) (h : col.dtype = Dtype.object) :
    (cleanColPass2 (cleanColPass1 col)).cells.all cellDisplaySafe = true := by
  simp only [cleanColPass1, cleanColPass2, if_pos h]
  simp only [List.all_eq_true, List.mem_map]
  rintro c ⟨c', ⟨c'', _, rfl⟩, rfl⟩
  simp only [reduceCtorEq, if_neg]
  exact cellDisplaySafe_arrowClean _

theorem cleanCol_numeric_eq (col : PandasColumn)
    (h : col.dtype = Dtype.int64 ∨ col.dtype = Dtype.float64) :
    cleanColPass2 (cleanColPass1 col) =
      { col with cells := col.cells.map (fun c => if c = Cell.null then Cell.num 0 else c) } := by
  have hobj : ¬ col.dtype = Dtype.object := by
    rcases h with h | h <;> simp [h]
  simp [cleanColPass1, cleanColPass2, hobj, h]

/-- C10: `_clean_dataframe_for_display` yields a dataframe in which
every object-dtype column holds only text cells free of `%`, `$` and
`:` (in particular no nulls), and every int64/float64 column is the
input column with each null replaced by 0 — so missing numeric cells
are silently converted to 0 before any analysis sees the dataframe. -/
theorem c10_clean_dataframe_for_display_props (df : PandasDF) :
    objectColumnsDisplaySafe (_clean_dataframe_for_display df) = true
    ∧ numericColumnsNullFree (_clean_dataframe_for_display df) = true
    ∧ numericNullsZeroed df (_clean_dataframe_for_display df) = true := by
  refine ⟨?_, ?_, ?_⟩
  · simp only [objectColumnsDisplaySafe, _clean_dataframe_for_display, List.all_map,
      List.all_eq_true, Function.comp]
    intro col _
    by_cases h : col.dtype = Dtype.object
    · have hd : (cleanColPass2 (cleanColPass1 col)).dtype = Dtype.object := by
        simp [cleanColPass1, cleanColPass2, h]
      simp [hd, cleanCol_object_safe col h]
    · have hd : (cleanColPass2 (cleanColPass1 col)).dtype = col.dtype := by
        by_cases h2 : col.dtype = Dtype.int64 ∨ col.dtype = Dtype.float64
        · simp [cleanCol_numeric_eq col h2]
        · simp [cleanColPass1, cleanColPass2, h, h2]
      simp [Bool.or_eq_true, bne_iff_ne, hd, h]
  · simp only [numericColumnsNullFree, _clean_dataframe_for_display, List.all_map,
      List.all_eq_true, Function.comp]
    intro col _
    by_cases h : col.dtype = Dtype.int64 ∨ col.dtype = Dtype.float64
    · have := cleanCol_numeric_eq col h
      rw [this]
      simp only [Bool.or_eq_true, Bool.and_eq_true, bne_iff_ne, ne_eq, List.all_eq_true,
        List.mem_map]
      right
      rintro c ⟨c', _, rfl⟩
      by_cases hc : c' = Cell.null <;> simp [hc]
    · have hd : (cleanColPass2 (cleanColPass1 col)).dtype = col.dtype := by
        by_cases h2 : col.dtype = Dtype.object
        · simp [cleanColPass1, cleanColPass2, h2]
        · simp [cleanColPass1, cleanColPass2, h2, h]
      push_neg at h
      simp [hd, Bool.or_eq_true, Bool.and_eq_true, bne_iff_ne, h.1, h.2]
  · simp only [numericNullsZeroed, _clean_dataframe_for_display]
    have hz : df.cols.zip ((df.cols.map cleanColPass1).map cleanColPass2)
        = df.cols.map (fun col => (col, cleanColPass2 (cleanColPass1 col))) := by
      rw [List.map_map]
      calc df.cols.zip (df.cols.map (cleanColPass2 ∘ cleanColPass1))
          = (df.cols.map id).zip (df.cols.map (cleanColPass2 ∘ cleanColPass1)) := by
            rw [List.map_id]
        _ = df.cols.map (fun col => (col, cleanColPass2 (cleanColPass1 col))) := by
            rw [List.zip_map']
            rfl
    rw [hz]
    simp only [List.all_eq_true, List.mem_map]
    rintro p ⟨col, _, rfl⟩
    by_cases h : col.dtype = Dtype.int64 ∨ col.dtype = Dtype.float64
    · have he := cleanCol_numeric_eq col h
      simp [he]
    · push_neg at h
      simp [h.1, h.2]

/-- C1: the quality analysis is a pure function of the dataset in this
embedding — it reads nothing but its input — so two runs on the same
dataset D yield the very same report, field for field. -/
theorem c1_analysis_deterministic (D : Dataset) :
    generate_data_quality_report D = generate_data_quality_report D := rfl

theorem qualityScore_bounds (a b c : ℚ) :
    0 ≤ qualityScore a b c ∧ qualityScore a b c ≤ 100 := by
  unfold qualityScore
  exact ⟨le_max_left 0 _, max_le (by norm_num) (min_le_left _ _)⟩

/-- C2: the quality score of every report lies in the closed interval
[0, 100] (the weighted-penalty composite is clamped, spec §4.1). -/
theorem c2_quality_score_in_range (D : Dataset) :
    0 ≤ (generate_data_quality_report D).quality_score
    ∧ (generate_data_quality_report D).quality_score ≤ 100 :=
  qualityScore_bounds _ _ _

/-- C8: the suggestion synthesizer returns exactly the five fixed
categories as keys, in order, each mapped to a (possibly empty) list of
recommendation strings. -/
theorem c8_suggest_fixed_categories (r : QualityReport) :
    (suggest_cleaning_strategies r).map Prod.fst =
      ["missing_values", "duplicates", "outliers", "data_types", "text_cleaning"] := rfl

/-- C9: cleaning with an empty operation list is a no-op, not an
error — the pipeline returns the input dataset and an empty log, and
the session keeps the original dataset as its working copy. -/
theorem c9_empty_ops_noop (D : Dataset) :
    auto_clean_data D [] = Except.ok (D, [])
    ∧ (DataCleaner.init D).autoClean [] = Except.ok ⟨D, D, []⟩ :=
  ⟨rfl, rfl⟩

/-- The spec §8 example dataset whose rows are [[1,2],[1,2],[3,4]]. -/
def dupDemoDataset : Dataset :=
  ⟨[("a", [Cell.num 1, Cell.num 1, Cell.num 3]),
    ("b", [Cell.num 2, Cell.num 2, Cell.num 4])]⟩

/-- The dataset left after removing the duplicate row of
`dupDemoDataset`. -/
def dupDemoCleaned : Dataset :=
  ⟨[("a", [Cell.num 1, Cell.num 3]),
    ("b", [Cell.num 2, Cell.num 4])]⟩

/-- C5: a row is a duplicate exactly when an identical row occurred
earlier, so the reported duplicate count is total rows minus distinct
rows; rows [A,B,A] give count 1; and `remove_duplicates` on rows
[[1,2],[1,2],[3,4]] keeps first occurrences, removes exactly one row,
leaves 2 rows, and logs one entry mentioning "1" duplicate. -/
theorem c5_duplicate_semantics :
    (∀ D : Dataset, (generate_data_quality_report D).duplicates.total_duplicates
        = D.rows.length - (distinctRows D.rows).length)
    ∧ dupRowCount [[Cell.num 0], [Cell.num 1], [Cell.num 0]] = 1
    ∧ auto_clean_data dupDemoDataset ["remove_duplicates"]
        = Except.ok (dupDemoCleaned, ["Removed 1 duplicate rows"])
    ∧ dupDemoDataset.rowCount - dupDemoCleaned.rowCount = 1 := by
  refine ⟨fun D => ?_, by decide, by rfl, by decide⟩
  show dupRowCount D.rows = _
  exact dupRowCount_eq D.rows

/-- C3: the cleaning pipeline never mutates its input — after a
successful `autoClean`, the engine's original dataset is still
structurally equal to the dataset it was constructed around; the
cleaned result is a separate dataset value stored alongside it. -/
theorem c3_clean_preserves_input (D : Dataset) (ops : List String)
    (c' : DataCleaner)
    (h : (DataCleaner.init D).autoClean ops = Except.ok c') :
    c'.original_df = D := by
  have h' : (auto_clean_data D ops).map
      (fun r => DataCleaner.mk D r.1 r.2) = Except.ok c' := h
  cases hres : auto_clean_data D ops with
  | error e =>
      rw [hres] at h'
      exact absurd h' (by simp [Except.map])
  | ok r =>
      rw [hres] at h'
      simp only [Except.map] at h'
      injection h' with h2
      rw [← h2]

theorem c3_clean_preserves_input_witness :
    ((DataCleaner.init dupDemoDataset).autoClean ["remove_duplicates"]
        = Except.ok (DataCleaner.mk dupDemoDataset dupDemoCleaned
            ["Removed 1 duplicate rows"]))
    ∧ (DataCleaner.mk dupDemoDataset dupDemoCleaned
        ["Removed 1 duplicate rows"]).original_df = dupDemoDataset :=
  ⟨by rfl, c3_clean_preserves_input dupDemoDataset ["remove_duplicates"]
      (DataCleaner.mk dupDemoDataset dupDemoCleaned ["Removed 1 duplicate rows"])
      (by rfl)⟩

/-- C4: an operation list containing an unrecognized tag makes the
pipeline fail with a ValidationError before any operation runs — no
dataset is produced for any input dataset and the session state is not
replaced (atomicity). -/
theorem c4_unknown_tag_rejected (D : Dataset) (ops : List String) (t : String)
    (ht : t ∈ ops) (hu : t ∉ recognized_operations) :
    ∃ u, u ∉ recognized_operations
      ∧ auto_clean_data D ops = Except.error (CleanError.validationError u)
      ∧ ∀ c : DataCleaner, c.autoClean ops
          = Except.error (CleanError.validationError u) := by
  cases hfind : ops.find? (fun t => decide (t ∉ recognized_operations)) with
  | none =>
      exfalso
      have hall := List.find?_eq_none.mp hfind t ht
      simp only [decide_eq_true_eq] at hall
      exact hall hu
  | some u =>
      have hpred := of_decide_eq_true
        (List.find?_some (p := fun t => decide (t ∉ recognized_operations)) hfind)
      refine ⟨u, hpred, ?_, ?_⟩
      · unfold auto_clean_data
        rw [hfind]
      · intro c
        unfold DataCleaner.autoClean auto_clean_data
        rw [hfind]
        rfl

theorem c4_unknown_tag_rejected_witness :
    ("frobnicate" ∈ ["frobnicate"] ∧ "frobnicate" ∉ recognized_operations)
    ∧ ∃ u, u ∉ recognized_operations
      ∧ auto_clean_data dupDemoDataset ["frobnicate"]
          = Except.error (CleanError.validationError u)
      ∧ ∀ c : DataCleaner, c.autoClean ["frobnicate"]
          = Except.error (CleanError.validationError u) :=
  ⟨⟨by decide, by decide⟩,
   c4_unknown_tag_rejected dupDemoDataset ["frobnicate"] "frobnicate"
     (by decide) (by decide)⟩

/-- C7: when a numeric column's standard deviation is zero or undefined
(fewer than 2 values), the z-score outlier count computed by the
analyzer is 0 — the division by the stddev is guarded and never
reached. -/
theorem c7_zscore_guard (vs : List ℚ)
    (h : vs.length < 2 ∨ sampleVarianceQ vs = 0) :
    zScoreOutlierCount vs = 0 := by
  unfold zScoreOutlierCount
  rcases h with h | h
  · rw [if_pos h]
  · by_cases h2 : vs.length < 2
    · rw [if_pos h2]
    · rw [if_neg h2, if_pos h]

theorem c7_zscore_guard_witness :
    (sampleVarianceQ [5, 5, 5] = 0 ∧ zScoreOutlierCount [5, 5, 5] = 0)
    ∧ (List.length ([3] : List ℚ) < 2 ∧ zScoreOutlierCount [3] = 0) := by
  have hvar : sampleVarianceQ [5, 5, 5] = 0 := by
    norm_num [sampleVarianceQ, meanQ]
  exact ⟨⟨hvar, c7_zscore_guard [5, 5, 5] (Or.inr hvar)⟩,
    by decide, c7_zscore_guard [3] (Or.inl (by decide))⟩

/-- C6: on an empty dataset (zero rows, which includes the zero-column
case) the analyzer does not fault: it returns a complete degenerate
report — total and per-column missing counts and percentages are 0 (the
zero row count is guarded, no division), no duplicates, and the quality
score is the defined value 100. -/
theorem c6_empty_dataset_degenerate (D : Dataset) (huni : D.uniform)
    (h0 : D.rowCount = 0 ∨ D.cols = []) :
    (generate_data_quality_report D).missing_data.total_missing = 0
    ∧ (∀ p ∈ (generate_data_quality_report D).missing_data.patterns,
        p.2.count = 0 ∧ p.2.percentage = 0)
    ∧ (generate_data_quality_report D).missing_data.columns_with_missing = 0
    ∧ (generate_data_quality_report D).duplicates.total_duplicates = 0
    ∧ (generate_data_quality_report D).duplicates.percentage = 0
    ∧ (generate_data_quality_report D).quality_score = 100 := by
  have hrow : D.rowCount = 0 := by
    rcases h0 with h | h
    · exact h
    · simp [Dataset.rowCount, h]
  have hcells : ∀ c ∈ D.cols, c.2 = [] := by
    intro c hc
    have hlen := huni c hc
    rw [hrow] at hlen
    exact List.length_eq_zero.mp hlen
  have hnumfilter : D.cols.filter (fun c => isNumericColumn c.2) = [] := by
    rw [List.filter_eq_nil_iff]
    intro c hc
    rw [hcells c hc]
    simp [isNumericColumn, numericCells]
  simp only [generate_data_quality_report]
  refine ⟨?_, ?_, ?_, ?_, ?_, ?_⟩
  · apply List.sum_eq_zero
    intro x hx
    obtain ⟨c, hc, rfl⟩ := List.mem_map.mp hx
    rw [hcells c hc]
    rfl
  · intro p hp
    obtain ⟨c, hc, rfl⟩ := List.mem_map.mp hp
    constructor
    · show nullCount c.2 = 0
      rw [hcells c hc]
      rfl
    · show (if D.rowCount = 0 then 0 else _) = 0
      rw [if_pos hrow]
  · rw [List.length_eq_zero, List.filter_eq_nil_iff]
    intro c hc
    rw [hcells c hc]
    simp [nullCount]
  · show dupRowCount D.rows = 0
    simp [Dataset.rows, hrow, dupRowCount, dupCountAux]
  · show (if D.rowCount = 0 then 0 else _) = 0
    rw [if_pos hrow]
  · show qualityScore _ _ _ = 100
    rw [if_pos (by rw [hrow]; ring : D.rowCount * D.cols.length = 0), if_pos hrow,
      hnumfilter]
    show qualityScore 0 0 (meanQ []) = 100
    simp [qualityScore, meanQ, MISSING_WEIGHT, DUPLICATE_WEIGHT, OUTLIER_WEIGHT]

/-- Concrete empty dataset (two columns, zero rows) used to witness
C6. -/
def emptyDemoDataset : Dataset := ⟨[("a", []), ("b", [])]⟩

theorem c6_empty_dataset_degenerate_witness :
    (emptyDemoDataset.uniform ∧ emptyDemoDataset.rowCount = 0)
    ∧ ((generate_data_quality_report emptyDemoDataset).missing_data.total_missing = 0
    ∧ (∀ p ∈ (generate_data_quality_report emptyDemoDataset).missing_data.patterns,
        p.2.count = 0 ∧ p.2.percentage = 0)
    ∧ (generate_data_quality_report emptyDemoDataset).missing_data.columns_with_missing = 0
    ∧ (generate_data_quality_report emptyDemoDataset).duplicates.total_duplicates = 0
    ∧ (generate_data_quality_report emptyDemoDataset).duplicates.percentage = 0
    ∧ (generate_data_quality_report emptyDemoDataset).quality_score = 100) :=
  ⟨⟨by unfold Dataset.uniform; decide, by decide⟩,
   c6_empty_dataset_degenerate emptyDemoDataset (by unfold Dataset.uniform; decide)
     (Or.inl (by decide))⟩
